import Mathlib

/-!
Verification of `src/asset_update.py` (Lansweeper asset reconciliation script).

The Python code is shallowly embedded: raw cell / JSON values become the
inductive `Value` (Python `None`, pandas `NaN`, or a string), the
`datetime.strptime`-based date normalisation in `parse_date` becomes an
executable parser over `List Char` that mirrors CPython's `_strptime`
regexes for the twelve format strings listed in the source, and the row
loop of `main` becomes an explicit state-passing function over an
environment (`World`) supplying the spreadsheet rows, the remote lookup
results, the interactive conflict decisions, the rate-limit-gate answers
and the update-call results.
-/

/-- A loosely typed Python cell/field value: `None`, a pandas `NaN`, or a
string.  (Spreadsheet and JSON values handled by the script are modelled as
strings; no claim needs numeric cell types.) -/
inductive Value where
  | vnone
  | vnan
  | vstr (s : String)
deriving DecidableEq, Repr

/-- Python `str(value)` for the three value shapes. -/
def pyStr : Value → String
  | .vnone => "None"
  | .vnan => "nan"
  | .vstr s => s

/-- `pd.isna(value)`: true for `None` and `NaN`, false for any string. -/
def pd_isna : Value → Bool
  | .vnone => true
  | .vnan => true
  | .vstr _ => false

/-- Python `value == ''` (only a string can equal the empty string). -/
def pyEqEmptyStr : Value → Bool
  | .vstr s => s == ""
  | _ => false

/-- Python `value is None`. -/
def pyIsNone : Value → Bool
  | .vnone => true
  | _ => false

/-- Whitespace stripped by Python `str.strip()` (the ASCII cases). -/
def isSpaceChar (c : Char) : Bool :=
  c == ' ' || c == '\t' || c == '\n' || c == '\r'

/-- Python `str.strip()` on a character list. -/
def pyStrip (cs : List Char) : List Char :=
  ((cs.dropWhile isSpaceChar).reverse.dropWhile isSpaceChar).reverse

/-- `is_empty` (asset_update.py:286-288):
`pd.isna(value) or value == '' or value is None or str(value).strip() == ''`. -/
def is_empty (v : Value) : Bool :=
  pd_isna v || pyEqEmptyStr v || pyIsNone v || (pyStrip (pyStr v).data).isEmpty

/-- Digit value of a character (`c - '0'`). -/
def dv (c : Char) : Nat := c.toNat - 48

/-- The regex class `[0-9]` / `\d` used by CPython `_strptime`. -/
def isDigitChar (c : Char) : Bool := 48 ≤ c.toNat && c.toNat ≤ 57

/-- The character for a single digit. -/
def digitChar (d : Nat) : Char := Char.ofNat (48 + d)

/-- `%Y` in `_strptime`: exactly four digits. -/
def num4 : List Char → Option (Nat × List Char)
  | a :: b :: c :: d :: r =>
      if isDigitChar a && isDigitChar b && isDigitChar c && isDigitChar d then
        some (((dv a * 10 + dv b) * 10 + dv c) * 10 + dv d, r)
      else none
  | _ => none

/-- `%y` in `_strptime`: exactly two digits (any value `00`-`99`). -/
def numExact2 : List Char → Option (Nat × List Char)
  | a :: b :: r =>
      if isDigitChar a && isDigitChar b then some (dv a * 10 + dv b, r) else none
  | _ => none

/-- A two-digit numeric field whose two-digit alternatives in the
`_strptime` regex cover exactly the values `lo..hi` (e.g. `%m` is
`1[0-2]|0[1-9]` = two digits with value `1..12`). -/
def num2 (lo hi : Nat) : List Char → Option (Nat × List Char)
  | a :: b :: r =>
      if isDigitChar a && isDigitChar b &&
         decide (lo ≤ dv a * 10 + dv b) && decide (dv a * 10 + dv b ≤ hi) then
        some (dv a * 10 + dv b, r)
      else none
  | _ => none

/-- The one-digit fallback alternative of a numeric field (e.g. `[1-9]`
for `%m`/`%d`, `\d` for `%H`/`%M`/`%S`). -/
def num1 (lo : Nat) : List Char → Option (Nat × List Char)
  | a :: r => if isDigitChar a && decide (lo ≤ dv a) then some (dv a, r) else none
  | _ => none

/-- Consume exactly `k` digits (used for the `%f` alternatives). -/
def digitsN : Nat → List Char → Option (List Char)
  | 0, r => some r
  | k + 1, a :: r => if isDigitChar a then digitsN k r else none
  | _ + 1, [] => none

/-- First-success choice, modelling regex alternative preference. -/
def oelse : Option α → Option α → Option α
  | some x, _ => some x
  | none, b => b

/-- The broken-down time produced by `datetime.strptime` (fields the script
renders; `%f` microseconds are validated but never rendered). -/
structure Datetime where
  year : Nat
  month : Nat
  day : Nat
  hour : Nat
  minute : Nat
  second : Nat
deriving DecidableEq, Repr

/-- `strptime` defaults: 1900-01-01 00:00:00. -/
def strptimeDefault : Datetime := ⟨1900, 1, 1, 0, 0, 0⟩

/-- One directive of a `strptime` format string. -/
inductive Tok where
  | lit (c : Char)
  | year4
  | year2
  | month
  | day
  | hour
  | minute
  | second
  | fraction
deriving DecidableEq, Repr

/-- Run a format's directives over the input, with the alternative
preference and backtracking of the CPython `_strptime` regex (two-digit
alternatives are preferred, `%f` is greedy, a failed continuation falls
back to the next alternative).  Returns the parsed fields and the
unconsumed tail of the input. -/
def runFmt : List Tok → List Char → Datetime → Option (Datetime × List Char)
  | [], cs, dt => some (dt, cs)
  | Tok.lit c :: ts, cs, dt =>
      match cs with
      | [] => none
      | x :: r => if x = c then runFmt ts r dt else none
  | Tok.year4 :: ts, cs, dt =>
      match num4 cs with
      | some (v, r) => runFmt ts r { dt with year := v }
      | none => none
  | Tok.year2 :: ts, cs, dt =>
      match numExact2 cs with
      | some (v, r) =>
          runFmt ts r { dt with year := if v ≤ 68 then 2000 + v else 1900 + v }
      | none => none
  | Tok.month :: ts, cs, dt =>
      oelse
        (match num2 1 12 cs with
         | some (v, r) => runFmt ts r { dt with month := v }
         | none => none)
        (match num1 1 cs with
         | some (v, r) => runFmt ts r { dt with month := v }
         | none => none)
  | Tok.day :: ts, cs, dt =>
      oelse
        (match num2 1 31 cs with
         | some (v, r) => runFmt ts r { dt with day := v }
         | none => none)
        (match num1 1 cs with
         | some (v, r) => runFmt ts r { dt with day := v }
         | none => none)
  | Tok.hour :: ts, cs, dt =>
      oelse
        (match num2 0 23 cs with
         | some (v, r) => runFmt ts r { dt with hour := v }
         | none => none)
        (match num1 0 cs with
         | some (v, r) => runFmt ts r { dt with hour := v }
         | none => none)
  | Tok.minute :: ts, cs, dt =>
      oelse
        (match num2 0 59 cs with
         | some (v, r) => runFmt ts r { dt with minute := v }
         | none => none)
        (match num1 0 cs with
         | some (v, r) => runFmt ts r { dt with minute := v }
         | none => none)
  | Tok.second :: ts, cs, dt =>
      oelse
        (match num2 0 59 cs with
         | some (v, r) => runFmt ts r { dt with second := v }
         | none => none)
        (match num1 0 cs with
         | some (v, r) => runFmt ts r { dt with second := v }
         | none => none)
  | Tok.fraction :: ts, cs, dt =>
      oelse
        (match digitsN 6 cs with
         | some r => runFmt ts r dt
         | none => none)
        (oelse
          (match digitsN 5 cs with
           | some r => runFmt ts r dt
           | none => none)
          (oelse
            (match digitsN 4 cs with
             | some r => runFmt ts r dt
             | none => none)
            (oelse
              (match digitsN 3 cs with
               | some r => runFmt ts r dt
               | none => none)
              (oelse
                (match digitsN 2 cs with
                 | some r => runFmt ts r dt
                 | none => none)
                (match digitsN 1 cs with
                 | some r => runFmt ts r dt
                 | none => none)))))

/-- Gregorian leap year, as used by Python's `datetime`. -/
def isLeapYear (y : Nat) : Bool :=
  (y % 4 == 0 && y % 100 != 0) || y % 400 == 0

/-- Days in a month, as validated by the `datetime` constructor. -/
def daysInMonth (y m : Nat) : Nat :=
  if m == 2 then (if isLeapYear y then 29 else 28)
  else if m == 4 || m == 6 || m == 9 || m == 11 then 30
  else 31

/-- The range validation performed by the `datetime(...)` constructor
(raises `ValueError` outside these bounds). -/
def datetime_valid (dt : Datetime) : Bool :=
  decide (1 ≤ dt.year) && decide (dt.year ≤ 9999) &&
  decide (1 ≤ dt.month) && decide (dt.month ≤ 12) &&
  decide (1 ≤ dt.day) && decide (dt.day ≤ daysInMonth dt.year dt.month) &&
  decide (dt.hour ≤ 23) && decide (dt.minute ≤ 59) && decide (dt.second ≤ 59)

/-- `datetime.strptime(data, fmt)`: the format regex must match, the whole
input must be consumed ("unconverted data remains" otherwise), and the
matched fields must form a valid datetime. -/
def strptime (toks : List Tok) (cs : List Char) : Option Datetime :=
  match runFmt toks cs strptimeDefault with
  | some (dt, []) => if datetime_valid dt then some dt else none
  | _ => none

/-- Format `'%Y-%m-%dT%H:%M:%S.%fZ'`. -/
def fmtIsoFracZ : List Tok :=
  [.year4, .lit '-', .month, .lit '-', .day, .lit 'T',
   .hour, .lit ':', .minute, .lit ':', .second, .lit '.', .fraction, .lit 'Z']

/-- Format `'%Y-%m-%dT%H:%M:%SZ'`. -/
def fmtIsoZ : List Tok :=
  [.year4, .lit '-', .month, .lit '-', .day, .lit 'T',
   .hour, .lit ':', .minute, .lit ':', .second, .lit 'Z']

/-- Format `'%Y-%m-%d %H:%M:%S'`. -/
def fmtYmdSpaceTime : List Tok :=
  [.year4, .lit '-', .month, .lit '-', .day, .lit ' ',
   .hour, .lit ':', .minute, .lit ':', .second]

/-- Format `'%Y-%m-%dT%H:%M:%S'`. -/
def fmtIsoT : List Tok :=
  [.year4, .lit '-', .month, .lit '-', .day, .lit 'T',
   .hour, .lit ':', .minute, .lit ':', .second]

/-- Format `'%Y-%m-%d'`. -/
def fmtYmd : List Tok := [.year4, .lit '-', .month, .lit '-', .day]

/-- Format `'%m/%d/%Y'`. -/
def fmtMdY : List Tok := [.month, .lit '/', .day, .lit '/', .year4]

/-- Format `'%d/%m/%Y'`. -/
def fmtDmY : List Tok := [.day, .lit '/', .month, .lit '/', .year4]

/-- Format `'%Y/%m/%d'`. -/
def fmtYmdSlash : List Tok := [.year4, .lit '/', .month, .lit '/', .day]

/-- Format `'%m-%d-%Y'`. -/
def fmtMdYDash : List Tok := [.month, .lit '-', .day, .lit '-', .year4]

/-- Format `'%d-%m-%Y'`. -/
def fmtDmYDash : List Tok := [.day, .lit '-', .month, .lit '-', .year4]

/-- Format `'%m/%d/%y'`. -/
def fmtMdy2 : List Tok := [.month, .lit '/', .day, .lit '/', .year2]

/-- Format `'%d/%m/%y'`. -/
def fmtDmy2 : List Tok := [.day, .lit '/', .month, .lit '/', .year2]

/-- The `date_formats` list of `parse_date` (asset_update.py:218-234), in
source order. -/
def dateFormats : List (List Tok) :=
  [fmtIsoFracZ, fmtIsoZ, fmtYmdSpaceTime, fmtIsoT, fmtYmd,
   fmtMdY, fmtDmY, fmtYmdSlash, fmtMdYDash, fmtDmYDash, fmtMdy2, fmtDmy2]

/-- The `output_fmt` argument of `parse_date`: `'normal'` or `'lansweeper'`. -/
inductive OutFmt where
  | normal
  | lansweeper
deriving DecidableEq, Repr

/-- Two-digit zero-padded rendering (`strftime` `%m`, `%d`, `%H`, `%M`, `%S`). -/
def pad2 (n : Nat) : List Char := [digitChar (n / 10), digitChar (n % 10)]

/-- Four-digit zero-padded rendering (`strftime` `%Y`). -/
def pad4 (n : Nat) : List Char :=
  [digitChar (n / 1000), digitChar (n / 100 % 10), digitChar (n / 10 % 10), digitChar (n % 10)]

/-- `strftime('%Y-%m-%d')`. -/
def renderNormal (dt : Datetime) : List Char :=
  pad4 dt.year ++ '-' :: pad2 dt.month ++ '-' :: pad2 dt.day

/-- `strftime('%Y-%m-%dT%H:%M:%SZ')`. -/
def renderLansweeper (dt : Datetime) : List Char :=
  renderNormal dt ++ 'T' :: pad2 dt.hour ++ ':' :: pad2 dt.minute ++ ':' :: pad2 dt.second ++ ['Z']

/-- Render a parsed date in the requested output representation. -/
def renderDT : OutFmt → Datetime → List Char
  | .normal, dt => renderNormal dt
  | .lansweeper, dt => renderLansweeper dt

/-- The `for fmt in date_formats` loop of `parse_date`: first format whose
`strptime` succeeds wins, and its result is rendered in the requested
output representation. -/
def tryFormats : List (List Tok) → List Char → OutFmt → Option (List Char)
  | [], _, _ => none
  | f :: fs, cs, ofmt =>
      match strptime f cs with
      | some dt => some (renderDT ofmt dt)
      | none => tryFormats fs cs ofmt

/-- `parse_date` (asset_update.py:200-257).  Empty input yields `None`;
otherwise the input is `str(...)`-converted, stripped, and matched against
the format list.  (The trailing `hasattr(date_str, 'strftime')` branch is
unreachable: `date_str` has already been converted to `str`.) -/
def parse_date (v : Value) (output_fmt : OutFmt) : Option String :=
  if is_empty v then none
  else
    match tryFormats dateFormats (pyStrip (pyStr v).data) output_fmt with
    | some cs => some (String.mk cs)
    | none => none

/-- List prefix test on characters. -/
def hasPrefixL : List Char → List Char → Bool
  | [], _ => true
  | _ :: _, [] => false
  | p :: ps, c :: cs => p == c && hasPrefixL ps cs

/-- Naive substring test, modelling Python `pat in s`. -/
def containsSub (pat : List Char) : List Char → Bool
  | [] => hasPrefixL pat []
  | c :: rest => hasPrefixL pat (c :: rest) || containsSub pat rest

/-- ASCII lower-casing of one character (the field names passed in the
script are ASCII, so this matches Python `str.lower`). -/
def lowerChar (c : Char) : Char :=
  if 65 ≤ c.toNat && c.toNat ≤ 90 then Char.ofNat (c.toNat + 32) else c

/-- Python `field_name.lower()`. -/
def pyLower (s : String) : String := String.mk (s.data.map lowerChar)

/-- Python `'date' in field_name.lower()`. -/
def isDateField (field_name : String) : Bool :=
  containsSub "date".data (pyLower field_name).data

/-- `compare_values` (asset_update.py:259-284). -/
def compare_values (spreadsheet_val lansweeper_val : Value) (field_name : String) : Bool :=
  if pd_isna spreadsheet_val && (pyIsNone lansweeper_val || pyEqEmptyStr lansweeper_val) then
    true
  else if pd_isna spreadsheet_val || (pyIsNone lansweeper_val || pyEqEmptyStr lansweeper_val) then
    false
  else if isDateField field_name then
    parse_date spreadsheet_val .normal == parse_date lansweeper_val .normal
  else
    pyStrip (pyStr spreadsheet_val).data == pyStrip (pyStr lansweeper_val).data

/-- One spreadsheet row, restricted to the four required columns
(`Serial Number`, `Barcode Number`, `Invoice Date`, `Extended Warranty`). -/
structure Row where
  serialNumber : Value
  barcodeNumber : Value
  invoiceDate : Value
  extWarranty : Value
deriving DecidableEq, Repr

/-- The `assetCustom` sub-object of one returned asset; `none` in a field
models a missing key (the `.get(..., '')` default applies). -/
structure AssetCustom where
  barCode : Option Value
  purchaseDate : Option Value
  warrantyDate : Option Value
deriving DecidableEq, Repr

/-- One item of `assetResources.items`. -/
structure AssetItem where
  key : String
  name : String
  custom : Option AssetCustom
deriving DecidableEq, Repr

/-- Result of one `get_asset_by_serial` call: `failure` models every path
returning `None` (transport exception, GraphQL `errors` payload, malformed
response shape); `success` carries the `total` count and `items` list. -/
inductive LookupResult where
  | failure
  | success (total : Nat) (items : List AssetItem)
deriving DecidableEq, Repr

/-- A validated answer of `get_user_choice` (the prompt loops until one of
the four options is entered). -/
inductive Choice where
  | ls_to_sheet
  | sheet_to_ls
  | skip
  | quit
deriving DecidableEq, Repr

/-- The environment of one run: the spreadsheet rows plus the streams of
external responses, indexed by how many of each have been consumed. -/
structure World where
  rows : List Row
  lookups : Nat → LookupResult
  decisions : Nat → Choice
  gateQuit : Nat → Bool
  updateOk : Nat → Bool

/-- A `spreadsheet_changes` entry: the two branches that mutate the local
row (gap fill at asset_update.py:435-436, adopt-remote at 462-464). -/
inductive SheetChange where
  | gapFilled (rowIdx : Nat) (serial : Value) (field : String) (newVal : Option String)
  | adoptedRemote (rowIdx : Nat) (serial : Value) (field : String) (oldVal newVal : Option String)
deriving DecidableEq, Repr

/-- An `ls_changes` entry (staging records and dispatch results). -/
inductive LsChange where
  | willFill (serial : Value) (field : String) (v : Option String)
  | willOverride (serial : Value) (field : String) (oldVal newVal : Option String)
  | updatedLs (serial : Value) (updates : List (String × Option String))
  | failedLs (serial : Value) (updates : List (String × Option String))
deriving DecidableEq, Repr

/-- A `missing_info` entry (both sources empty, asset_update.py:429). -/
inductive MissingEntry where
  | bothEmpty (rowIdx : Nat) (serial : Value) (field : String)
deriving DecidableEq, Repr

/-- A `conflict_info` entry (barcode format checks 397/406, conflict
resolutions 463/469/474). -/
inductive ConflictEntry where
  | invalidLsBarcode (rowIdx : Nat) (serial : Value) (v : Value)
  | invalidSheetBarcode (rowIdx : Nat) (serial : Value) (v : Value)
  | overrideSheet (serial : Value) (field : String) (oldVal newVal : Option String)
  | overrideLs (serial : Value) (field : String) (oldVal newVal : Option String)
  | skippedField (serial : Value) (field : String) (sheetVal lsVal : Option String)
deriving DecidableEq, Repr

/-- A structured record of one write to the discrepancies file made while
the row loop runs (header, per-identity errors) or at the end (sections). -/
inductive DiscEntry where
  | header
  | notFound (serial : Value)
  | ambiguous (serial : Value)
  | stoppedByUser
  | missingSection
  | sheetSection
  | lsSection
  | conflictSection
deriving DecidableEq, Repr

/-- The value stored in the GraphQL `customFields` object for one field:
date fields are wrapped in a `ValueDateInput` object, others passed raw. -/
inductive CustomFieldVal where
  | dateWrapped (iso : String)
  | plain (v : Option String)
deriving DecidableEq, Repr

/-- One HTTP request actually posted to the remote service. -/
inductive RemoteCall where
  | lookupCall (serial : String)
  | updateCall (key : String) (fields : List (String × CustomFieldVal))
deriving DecidableEq, Repr

/-- The mutable state of one run of `main` plus the consumed-stream
cursors and the trace of issued remote calls. -/
structure St where
  df : List Row
  spreadsheet_changes : List SheetChange
  ls_changes : List LsChange
  missing_info : List MissingEntry
  conflict_info : List ConflictEntry
  discrepancy : List DiscEntry
  quit_processing : Bool
  request_count : Nat
  lookupIdx : Nat
  decisionIdx : Nat
  gateIdx : Nat
  updateIdx : Nat
  remoteCalls : List RemoteCall
deriving DecidableEq, Repr

/-- The state at the top of the row loop: empty ledgers, report header
written, `quit_processing = False`, `request_count = 0`. -/
def initSt (rows : List Row) : St :=
  { df := rows, spreadsheet_changes := [], ls_changes := [], missing_info := [],
    conflict_info := [], discrepancy := [DiscEntry.header], quit_processing := false,
    request_count := 0, lookupIdx := 0, decisionIdx := 0, gateIdx := 0, updateIdx := 0,
    remoteCalls := [] }

/-- `LansweeperAPI._check_rate_limit` (asset_update.py:42-52): every 150th
request count triggers the continuation prompt; answering `q` sets the
global `quit_processing` flag.  The caller proceeds either way. -/
def check_rate_limit (w : World) (st : St) : St :=
  if st.request_count % 150 == 0 && decide (st.request_count > 0) then
    if w.gateQuit st.gateIdx then
      { st with gateIdx := st.gateIdx + 1, quit_processing := true }
    else
      { st with gateIdx := st.gateIdx + 1 }
  else st

/-- `LansweeperAPI.get_asset_by_serial` (asset_update.py:54-120): rate-limit
check, unconditional counter increment, one posted query, result from the
environment (`failure` models every `return None` path). -/
def get_asset_by_serial (w : World) (st : St) (serial_number : String) : St × LookupResult :=
  let st1 := check_rate_limit w st
  let st2 := { st1 with request_count := st1.request_count + 1 }
  let res := w.lookups st2.lookupIdx
  ({ st2 with lookupIdx := st2.lookupIdx + 1,
              remoteCalls := st2.remoteCalls ++ [RemoteCall.lookupCall serial_number] },
   res)

/-- The staged value of one `ls_updates` entry as the Python object passed
to `parse_date` at dispatch time (`None` when the staging-time parse failed). -/
def valueOfStaged : Option String → Value
  | some s => Value.vstr s
  | none => Value.vnone

/-- The fate of one `fields_to_update` item inside `update_asset`
(asset_update.py:142-150): date fields are re-parsed into the Lansweeper
representation and dropped when that parse yields nothing; other fields are
passed through unchanged. -/
def lsUpdateEntry (f : String × Option String) : Option (String × CustomFieldVal) :=
  if f.1 == "purchaseDate" || f.1 == "warrantyDate" then
    match parse_date (valueOfStaged f.2) OutFmt.lansweeper with
    | some iso => some (f.1, CustomFieldVal.dateWrapped iso)
    | none => none
  else
    some (f.1, CustomFieldVal.plain f.2)

/-- The `custom_fields` loop of `update_asset` (asset_update.py:141-150). -/
def buildCustomFields : List (String × Option String) → List (String × CustomFieldVal)
  | [] => []
  | f :: rest =>
      match lsUpdateEntry f with
      | some e => e :: buildCustomFields rest
      | none => buildCustomFields rest

/-- `LansweeperAPI.update_asset` (asset_update.py:122-198): rate-limit
check, unconditional counter increment, early `True` on an empty update
set or an empty processed `custom_fields`, otherwise one posted mutation
whose outcome comes from the environment. -/
def update_asset (w : World) (st : St) (asset_key : String)
    (fields_to_update : List (String × Option String)) : St × Bool :=
  let st1 := check_rate_limit w st
  let st2 := { st1 with request_count := st1.request_count + 1 }
  if fields_to_update.isEmpty then
    (st2, true)
  else
    let custom_fields := buildCustomFields fields_to_update
    if custom_fields.isEmpty then
      (st2, true)
    else
      let ok := w.updateOk st2.updateIdx
      ({ st2 with updateIdx := st2.updateIdx + 1,
                  remoteCalls := st2.remoteCalls ++
                    [RemoteCall.updateCall asset_key custom_fields] },
       ok)

/-- Whether Python `int(x)` succeeds on the value (used by the secondary
barcode format checks; values are modelled as strings, so this is `int` of
a stripped optionally-signed digit string). -/
def pyIntOk : Value → Bool
  | .vstr s =>
      match pyStrip s.data with
      | [] => false
      | c :: rest =>
          if c == '+' || c == '-' then !rest.isEmpty && rest.all isDigitChar
          else (c :: rest).all isDigitChar
  | _ => false

/-- One entry of `fields_to_process` (asset_update.py:414-418). -/
structure FieldSpec where
  disp : String
  lsName : String
  sheetVal : Value
  lsVal : Value
deriving DecidableEq, Repr

/-- Write one cell of a row, addressed by display column name
(`df.at[index, field_display_name] = value`). -/
def setField (r : Row) (disp : String) (v : Value) : Row :=
  if disp == "Barcode Number" then { r with barcodeNumber := v }
  else if disp == "Invoice Date" then { r with invoiceDate := v }
  else if disp == "Extended Warranty" then { r with extWarranty := v }
  else r

/-- Apply `setField` to the row at the given position. -/
def dfSet : List Row → Nat → String → Value → List Row
  | [], _, _, _ => []
  | r :: rest, 0, disp, v => setField r disp v :: rest
  | r :: rest, n + 1, disp, v => r :: dfSet rest n disp v

/-- The body of the `for field_display_name, ... in fields_to_process`
loop for one field (asset_update.py:424-475): the four-way emptiness
classification, gap filling in either direction, and interactive conflict
resolution. -/
def processOneField (w : World) (idx : Nat) (serial : Value) (f : FieldSpec)
    (st : St) (ls_updates : List (String × Option String)) :
    St × List (String × Option String) :=
  let sheet_empty := is_empty f.sheetVal
  let ls_empty := is_empty f.lsVal
  if sheet_empty && ls_empty then
    ({ st with missing_info := st.missing_info ++ [MissingEntry.bothEmpty idx serial f.disp] },
     ls_updates)
  else if sheet_empty && !ls_empty then
    let normalized_ls_val : Option String :=
      if isDateField f.lsName then parse_date f.lsVal OutFmt.normal else some (pyStr f.lsVal)
    ({ st with df := dfSet st.df idx f.disp (valueOfStaged normalized_ls_val),
               spreadsheet_changes := st.spreadsheet_changes ++
                 [SheetChange.gapFilled idx serial f.disp normalized_ls_val] },
     ls_updates)
  else if !sheet_empty && ls_empty then
    let normalized_sheet_val : Option String :=
      if isDateField f.lsName then parse_date f.sheetVal OutFmt.normal else some (pyStr f.sheetVal)
    ({ st with ls_changes := st.ls_changes ++
                 [LsChange.willFill serial f.disp normalized_sheet_val] },
     ls_updates ++ [(f.lsName, normalized_sheet_val)])
  else
    if compare_values f.sheetVal f.lsVal f.lsName then
      (st, ls_updates)
    else
      let normalized_sheet_val : Option String :=
        if isDateField f.lsName then parse_date f.sheetVal OutFmt.normal else some (pyStr f.sheetVal)
      let normalized_ls_val : Option String :=
        if isDateField f.lsName then parse_date f.lsVal OutFmt.normal else some (pyStr f.lsVal)
      let choice := w.decisions st.decisionIdx
      let st1 := { st with decisionIdx := st.decisionIdx + 1 }
      match choice with
      | Choice.quit =>
          ({ st1 with quit_processing := true }, ls_updates)
      | Choice.ls_to_sheet =>
          ({ st1 with df := dfSet st1.df idx f.disp (valueOfStaged normalized_ls_val),
                      conflict_info := st1.conflict_info ++
                        [ConflictEntry.overrideSheet serial f.disp normalized_sheet_val normalized_ls_val],
                      spreadsheet_changes := st1.spreadsheet_changes ++
                        [SheetChange.adoptedRemote idx serial f.disp normalized_sheet_val normalized_ls_val] },
           ls_updates)
      | Choice.sheet_to_ls =>
          ({ st1 with conflict_info := st1.conflict_info ++
                        [ConflictEntry.overrideLs serial f.disp normalized_ls_val normalized_sheet_val],
                      ls_changes := st1.ls_changes ++
                        [LsChange.willOverride serial f.disp normalized_ls_val normalized_sheet_val] },
           ls_updates ++ [(f.lsName, normalized_sheet_val)])
      | Choice.skip =>
          ({ st1 with conflict_info := st1.conflict_info ++
                        [ConflictEntry.skippedField serial f.disp normalized_sheet_val normalized_ls_val] },
           ls_updates)

/-- The field loop of one row, with the `if quit_processing: break` check
at the top of every iteration. -/
def processFields (w : World) (idx : Nat) (serial : Value) :
    List FieldSpec → St → List (String × Option String) →
    St × List (String × Option String)
  | [], st, u => (st, u)
  | f :: rest, st, u =>
      if st.quit_processing then (st, u)
      else
        let p := processOneField w idx serial f st u
        processFields w idx serial rest p.1 p.2

/-- `asset['assetCustom'].get(key, '') if asset.get('assetCustom') else ''`. -/
def extractCustom (item : AssetItem) (get : AssetCustom → Option Value) : Value :=
  match item.custom with
  | some c => (get c).getD (Value.vstr "")
  | none => Value.vstr ""

/-- The staged `ls_updates` dispatch at the end of one row
(asset_update.py:477-486): one `update_asset` call when the batch is
non-empty and the quit flag is unset; the batch is then discarded. -/
def dispatchRow (w : World) (st : St) (item : AssetItem) (serial : Value)
    (ls_updates : List (String × Option String)) : St :=
  if !ls_updates.isEmpty && !st.quit_processing then
    let p := update_asset w st item.key ls_updates
    if p.2 then
      { p.1 with ls_changes := p.1.ls_changes ++ [LsChange.updatedLs serial ls_updates] }
    else
      { p.1 with ls_changes := p.1.ls_changes ++ [LsChange.failedLs serial ls_updates] }
  else st

/-- One iteration of the row loop (asset_update.py:365-486).  An
`Except.error` result models an uncaught exception propagating to the
top-level `except Exception` handler: subscripting the `None` returned by
a failed lookup (line 378), or `items[0]` on an empty list (line 387). -/
def processRow (w : World) (idx : Nat) (row : Row) (st : St) : Except St St :=
  let serial_number := row.serialNumber
  if is_empty serial_number then Except.ok st
  else
    let p := get_asset_by_serial w st (pyStr serial_number)
    match p.2 with
    | LookupResult.failure => Except.error p.1
    | LookupResult.success total items =>
      if total == 0 then
        Except.ok { p.1 with discrepancy := p.1.discrepancy ++ [DiscEntry.notFound serial_number] }
      else if decide (total > 1) then
        Except.ok { p.1 with discrepancy := p.1.discrepancy ++ [DiscEntry.ambiguous serial_number] }
      else
        match items with
        | [] => Except.error p.1
        | item :: _ =>
          let ls_barcode := extractCustom item AssetCustom.barCode
          let st2 :=
            if !is_empty ls_barcode && !pyIntOk ls_barcode then
              { p.1 with conflict_info := p.1.conflict_info ++
                  [ConflictEntry.invalidLsBarcode idx serial_number ls_barcode] }
            else p.1
          let ls_purchase_date := extractCustom item AssetCustom.purchaseDate
          let ls_warranty_date := extractCustom item AssetCustom.warrantyDate
          let spreadsheet_barcode := row.barcodeNumber
          let st3 :=
            if !is_empty spreadsheet_barcode && !pyIntOk spreadsheet_barcode then
              { st2 with conflict_info := st2.conflict_info ++
                  [ConflictEntry.invalidSheetBarcode idx serial_number spreadsheet_barcode] }
            else st2
          let fields : List FieldSpec :=
            [⟨"Barcode Number", "barCode", spreadsheet_barcode, ls_barcode⟩,
             ⟨"Invoice Date", "purchaseDate", row.invoiceDate, ls_purchase_date⟩,
             ⟨"Extended Warranty", "warrantyDate", row.extWarranty, ls_warranty_date⟩]
          let q := processFields w idx serial_number fields st3 []
          Except.ok (dispatchRow w q.1 item serial_number q.2)

/-- The row loop with its `if quit_processing: break` at the top of every
iteration; an exception in a row aborts the remainder. -/
def processRows (w : World) : List (Nat × Row) → St → Except St St
  | [], st => Except.ok st
  | (idx, row) :: rest, st =>
      if st.quit_processing then Except.ok st
      else
        match processRow w idx row st with
        | Except.error stE => Except.error stE
        | Except.ok st1 => processRows w rest st1

/-- `df.iterrows()` positions. -/
def enumFrom : Nat → List Row → List (Nat × Row)
  | _, [] => []
  | n, r :: rest => (n, r) :: enumFrom (n + 1) rest

/-- What one run of `main` produced: the final state, whether the run was
terminated by the top-level exception handler, and how many times the
spreadsheet file was written back. -/
structure RunOutcome where
  final : St
  crashed : Bool
  saveCount : Nat
deriving DecidableEq, Repr

/-- The end-of-run report sections (asset_update.py:491-526), each written
only when its list is non-empty. -/
def appendSections (st : St) : St :=
  let s1 :=
    if !st.missing_info.isEmpty then
      { st with discrepancy := st.discrepancy ++ [DiscEntry.missingSection] }
    else st
  let s2 :=
    if !s1.spreadsheet_changes.isEmpty then
      { s1 with discrepancy := s1.discrepancy ++ [DiscEntry.sheetSection] }
    else s1
  let s3 :=
    if !s2.ls_changes.isEmpty then
      { s2 with discrepancy := s2.discrepancy ++ [DiscEntry.lsSection] }
    else s2
  if !s3.conflict_info.isEmpty then
    { s3 with discrepancy := s3.discrepancy ++ [DiscEntry.conflictSection] }
  else s3

/-- `main` from the top of the row loop onward (asset_update.py:356-536):
run the rows; on an uncaught exception the handler at line 535 ends the
run with nothing written back; otherwise write the stopped-by-user notice
and the report sections, and save the spreadsheet exactly when
`spreadsheet_changes` is non-empty (lines 499-501). -/
def runMain (w : World) : RunOutcome :=
  match processRows w (enumFrom 0 w.rows) (initSt w.rows) with
  | Except.error st => { final := st, crashed := true, saveCount := 0 }
  | Except.ok st =>
      let st1 :=
        if st.quit_processing then
          { st with discrepancy := st.discrepancy ++ [DiscEntry.stoppedByUser] }
        else st
      let st2 := appendSections st1
      { final := st2, crashed := false,
        saveCount := if st2.spreadsheet_changes.isEmpty then 0 else 1 }

/-- The gate cursor after `_check_rate_limit` runs once. -/
def crlGate (_w : World) (st : St) : Nat :=
  if st.request_count % 150 == 0 && decide (st.request_count > 0) then st.gateIdx + 1
  else st.gateIdx

/-- The quit flag after `_check_rate_limit` runs once. -/
def crlQuit (w : World) (st : St) : Bool :=
  if st.request_count % 150 == 0 && decide (st.request_count > 0) then
    (if w.gateQuit st.gateIdx then true else st.quit_processing)
  else st.quit_processing

/-- Is this remote call an update mutation? -/
def isUpdateCall : RemoteCall → Bool
  | .updateCall _ _ => true
  | .lookupCall _ => false

/-- Number of update mutations among the issued calls. -/
def countUpdateCalls (l : List RemoteCall) : Nat := (l.filter isUpdateCall).length

/-- Modelled from the spec: the `FieldOutcome` variants of the data model
(spec section 3), the tagged result of comparing one ComparableField for
one identity.  The engine itself never reifies this value; it is the
specification-side classification the engine's branches are compared
against. -/
inductive FieldOutcome where
  | bothEmpty
  | fillLocal (v : Option String)
  | fillRemote (v : Option String)
  | matched
  | adoptRemote (sheetV lsV : Option String)
  | adoptLocal (sheetV lsV : Option String)
  | skippedOutcome (sheetV lsV : Option String)
  | aborted
deriving DecidableEq, Repr

/-- The per-field normalisation applied in every branch of the field loop:
dates to the `'normal'` calendar-date rendering, other values via `str`. -/
def normField (f : FieldSpec) (v : Value) : Option String :=
  if isDateField f.lsName then parse_date v OutFmt.normal else some (pyStr v)

/-- Modelled from the spec: the total classification of one
(identity, ComparableField) pair into exactly one `FieldOutcome`
(spec section 4.3 state machine plus the resolver decision of 4.4). -/
def classifyField (f : FieldSpec) (choice : Choice) : FieldOutcome :=
  if is_empty f.sheetVal && is_empty f.lsVal then .bothEmpty
  else if is_empty f.sheetVal && !is_empty f.lsVal then .fillLocal (normField f f.lsVal)
  else if !is_empty f.sheetVal && is_empty f.lsVal then .fillRemote (normField f f.sheetVal)
  else if compare_values f.sheetVal f.lsVal f.lsName then .matched
  else
    match choice with
    | .quit => .aborted
    | .ls_to_sheet => .adoptRemote (normField f f.sheetVal) (normField f f.lsVal)
    | .sheet_to_ls => .adoptLocal (normField f f.sheetVal) (normField f f.lsVal)
    | .skip => .skippedOutcome (normField f f.sheetVal) (normField f f.lsVal)

/-- The state/batch effect of one `FieldOutcome` (the right-hand sides of
the field-loop branches, indexed by the outcome). -/
def applyOutcome (idx : Nat) (serial : Value) (f : FieldSpec) (o : FieldOutcome)
    (st : St) (u : List (String × Option String)) :
    St × List (String × Option String) :=
  match o with
  | .bothEmpty =>
      ({ st with missing_info := st.missing_info ++ [MissingEntry.bothEmpty idx serial f.disp] }, u)
  | .fillLocal v =>
      ({ st with df := dfSet st.df idx f.disp (valueOfStaged v),
                 spreadsheet_changes := st.spreadsheet_changes ++
                   [SheetChange.gapFilled idx serial f.disp v] }, u)
  | .fillRemote v =>
      ({ st with ls_changes := st.ls_changes ++ [LsChange.willFill serial f.disp v] },
       u ++ [(f.lsName, v)])
  | .matched => (st, u)
  | .adoptRemote sv lv =>
      ({ st with decisionIdx := st.decisionIdx + 1,
                 df := dfSet st.df idx f.disp (valueOfStaged lv),
                 conflict_info := st.conflict_info ++
                   [ConflictEntry.overrideSheet serial f.disp sv lv],
                 spreadsheet_changes := st.spreadsheet_changes ++
                   [SheetChange.adoptedRemote idx serial f.disp sv lv] }, u)
  | .adoptLocal sv lv =>
      ({ st with decisionIdx := st.decisionIdx + 1,
                 conflict_info := st.conflict_info ++
                   [ConflictEntry.overrideLs serial f.disp lv sv],
                 ls_changes := st.ls_changes ++
                   [LsChange.willOverride serial f.disp lv sv] },
       u ++ [(f.lsName, sv)])
  | .skippedOutcome sv lv =>
      ({ st with decisionIdx := st.decisionIdx + 1,
                 conflict_info := st.conflict_info ++
                   [ConflictEntry.skippedField serial f.disp sv lv] }, u)
  | .aborted =>
      ({ st with decisionIdx := st.decisionIdx + 1, quit_processing := true }, u)

/-- A default/filler row. -/
def blankRow : Row := ⟨Value.vnone, Value.vnone, Value.vnone, Value.vnone⟩

/-- C1 scenario: two rows with serial numbers, and a remote service whose
first lookup fails (transport error / error payload, i.e. a `None` return). -/
def worldC1 : World :=
  { rows := [⟨Value.vstr "S1", Value.vnone, Value.vstr "11/08/2024", Value.vnone⟩,
             ⟨Value.vstr "S2", Value.vnone, Value.vnone, Value.vnone⟩],
    lookups := fun _ => LookupResult.failure,
    decisions := fun _ => Choice.skip,
    gateQuit := fun _ => false,
    updateOk := fun _ => true }

/-- C2 scenario: the local Invoice Date is a non-empty unparseable string,
the remote purchase date is empty, so an unparseable staged value reaches
the dispatcher. -/
def worldC2 : World :=
  { rows := [⟨Value.vstr "S1", Value.vnone, Value.vstr "notadate", Value.vnone⟩],
    lookups := fun _ => LookupResult.success 1 [⟨"K1", "Asset1", some ⟨none, none, none⟩⟩],
    decisions := fun _ => Choice.skip,
    gateQuit := fun _ => false,
    updateOk := fun _ => true }

/-- C3 scenario: local Invoice Date `11/08/2024`, remote purchase date
empty, remote update succeeding. -/
def worldC3 : World :=
  { rows := [⟨Value.vstr "S1", Value.vnone, Value.vstr "11/08/2024", Value.vnone⟩],
    lookups := fun _ => LookupResult.success 1 [⟨"K1", "Asset1", some ⟨none, none, none⟩⟩],
    decisions := fun _ => Choice.skip,
    gateQuit := fun _ => false,
    updateOk := fun _ => true }

/-- C4 scenario: the barcode field stages a remote update, the next field
(Invoice Date) is a genuine conflict and the user answers quit; a second
row remains. -/
def worldC4 : World :=
  { rows := [⟨Value.vstr "S1", Value.vstr "123", Value.vstr "11/08/2024", Value.vnone⟩,
             ⟨Value.vstr "S2", Value.vnone, Value.vnone, Value.vnone⟩],
    lookups := fun _ =>
      LookupResult.success 1 [⟨"K1", "Asset1", some ⟨none, some (Value.vstr "2024-12-01T00:00:00Z"), none⟩⟩],
    decisions := fun _ => Choice.quit,
    gateQuit := fun _ => false,
    updateOk := fun _ => true }

/-- C7 scenario row and world: the lookup returns two matches. -/
def rowC7 : Row := ⟨Value.vstr "S1", Value.vstr "123", Value.vnone, Value.vnone⟩

/-- C7 world. -/
def worldC7 : World :=
  { rows := [rowC7],
    lookups := fun _ => LookupResult.success 2 [],
    decisions := fun _ => Choice.skip,
    gateQuit := fun _ => false,
    updateOk := fun _ => true }

/-- C9 world: the continuation gate always answers quit. -/
def worldC9 : World :=
  { rows := [],
    lookups := fun _ => LookupResult.failure,
    decisions := fun _ => Choice.skip,
    gateQuit := fun _ => true,
    updateOk := fun _ => true }

/-- C9 state: 150 requests already issued, so the next call triggers the
continuation gate. -/
def stC9 : St := { initSt [] with request_count := 150 }

/-- C10 world (its contents are irrelevant to an empty-serial row). -/
def worldC10 : World :=
  { rows := [],
    lookups := fun _ => LookupResult.failure,
    decisions := fun _ => Choice.skip,
    gateQuit := fun _ => false,
    updateOk := fun _ => true }

lemma check_rate_limit_eq (w : World) (st : St) :
    check_rate_limit w st =
      { st with gateIdx := crlGate w st, quit_processing := crlQuit w st } := by
  simp only [check_rate_limit, crlGate, crlQuit]
  split_ifs <;> rfl

lemma get_asset_by_serial_eq (w : World) (st : St) (s : String) :
    get_asset_by_serial w st s =
      ({ st with gateIdx := crlGate w st, quit_processing := crlQuit w st,
                 request_count := st.request_count + 1, lookupIdx := st.lookupIdx + 1,
                 remoteCalls := st.remoteCalls ++ [RemoteCall.lookupCall s] },
       w.lookups st.lookupIdx) := by
  simp only [get_asset_by_serial, check_rate_limit, crlGate, crlQuit]
  split_ifs <;> rfl

lemma update_asset_eq (w : World) (st : St) (key : String)
    (fields : List (String × Option String))
    (hne : fields.isEmpty = false)
    (hcf : (buildCustomFields fields).isEmpty = false) :
    update_asset w st key fields =
      ({ st with gateIdx := crlGate w st, quit_processing := crlQuit w st,
                 request_count := st.request_count + 1, updateIdx := st.updateIdx + 1,
                 remoteCalls := st.remoteCalls ++
                   [RemoteCall.updateCall key (buildCustomFields fields)] },
       w.updateOk st.updateIdx) := by
  simp only [update_asset, check_rate_limit, crlGate, crlQuit, hne, hcf,
    Bool.false_eq_true, if_false]
  split_ifs <;> rfl

lemma processFields_quit (w : World) (idx : Nat) (serial : Value)
    (fs : List FieldSpec) (st : St) (u : List (String × Option String))
    (h : st.quit_processing = true) :
    processFields w idx serial fs st u = (st, u) := by
  cases fs with
  | nil => rfl
  | cons f rest => simp [processFields, h]

lemma processRows_quit (w : World) (rs : List (Nat × Row)) (st : St)
    (h : st.quit_processing = true) :
    processRows w rs st = Except.ok st := by
  cases rs with
  | nil => rfl
  | cons p rest => cases p; simp [processRows, h]

lemma dispatchRow_quit (w : World) (st : St) (item : AssetItem) (serial : Value)
    (u : List (String × Option String)) (h : st.quit_processing = true) :
    dispatchRow w st item serial u = st := by
  simp [dispatchRow, h]

lemma appendSections_sheet (st : St) :
    (appendSections st).spreadsheet_changes = st.spreadsheet_changes := by
  unfold appendSections
  dsimp only
  split_ifs <;> rfl

/-- C10: a row whose serial-number cell is Empty is skipped with only a
log warning: the state is unchanged, so no remote lookup is issued, no
field outcome is recorded, and no entry is added to the discrepancies
report. -/
theorem claim10_empty_serial_row_skipped (w : World) (idx : Nat) (row : Row) (st : St)
    (h : is_empty row.serialNumber = true) :
    processRow w idx row st = Except.ok st := by
  simp [processRow, h]

/-- Witness for C10 at a whitespace-only serial cell. -/
theorem claim10_witness :
    processRow worldC10 0 ⟨Value.vstr "   ", Value.vnone, Value.vnone, Value.vnone⟩ (initSt []) =
      Except.ok (initSt []) :=
  claim10_empty_serial_row_skipped worldC10 0 _ (initSt []) (by decide)

/-- C5 counterexample: a whitespace-only spreadsheet value and a `None`
remote value are both Empty under `is_empty`, yet `compare_values` returns
false (not equal) on them, because the comparator gates emptiness with
`pd.isna` / `is None or == ''` instead of the trimming predicate. -/
theorem claim5_counterexample :
    is_empty (Value.vstr " ") = true ∧ is_empty Value.vnone = true ∧
      compare_values (Value.vstr " ") Value.vnone "barCode" = false := by
  decide

/-- C5 amended: the comparator returns equal only for pairs empty under its
own narrower gate (pandas-missing on the spreadsheet side, `None` or the
empty string on the remote side); in the engine a pair that is both-Empty
under the trimming `is_empty` predicate is routed to the BothEmpty branch
before the comparator is ever consulted. -/
theorem claim5_empty_pair_amended :
    (∀ (sheet ls : Value) (fname : String),
        pd_isna sheet = true → (pyIsNone ls || pyEqEmptyStr ls) = true →
        compare_values sheet ls fname = true) ∧
    (∀ (w : World) (idx : Nat) (serial : Value) (f : FieldSpec) (st : St)
        (u : List (String × Option String)),
        is_empty f.sheetVal = true → is_empty f.lsVal = true →
        processOneField w idx serial f st u =
          ({ st with missing_info := st.missing_info ++
               [MissingEntry.bothEmpty idx serial f.disp] }, u)) := by
  constructor
  · intro sheet ls fname h1 h2
    simp [compare_values, h1, h2]
  · intro w idx serial f st u h1 h2
    simp [processOneField, h1, h2]

/-- Witness for C5's amended statement: NaN vs `None` compares equal, and a
both-empty field in the engine yields exactly the BothEmpty record. -/
theorem claim5_witness :
    compare_values Value.vnan Value.vnone "barCode" = true ∧
    processOneField worldC10 0 (Value.vstr "S1")
        ⟨"Invoice Date", "purchaseDate", Value.vstr "", Value.vnone⟩ (initSt []) [] =
      ({ initSt [] with missing_info := (initSt []).missing_info ++
           [MissingEntry.bothEmpty 0 (Value.vstr "S1") "Invoice Date"] }, []) :=
  ⟨claim5_empty_pair_amended.1 Value.vnan Value.vnone "barCode" (by decide) (by decide),
   claim5_empty_pair_amended.2 worldC10 0 (Value.vstr "S1") _ (initSt []) [] (by decide) (by decide)⟩

/-- C9: when the continuation gate is declined (quit), the remote call
whose rate-limit check triggered the gate is still issued and still
increments the request counter — `_check_rate_limit` only sets the flag —
and the flag is honoured at the next field boundary and the next identity
boundary. -/
theorem claim9_gate_quit_call_still_issued :
    (∀ (w : World) (st : St) (s : String),
        (get_asset_by_serial w st s).1.request_count = st.request_count + 1 ∧
        (get_asset_by_serial w st s).1.remoteCalls =
          st.remoteCalls ++ [RemoteCall.lookupCall s]) ∧
    (∀ (w : World) (st : St) (key : String) (fields : List (String × Option String)),
        fields.isEmpty = false → (buildCustomFields fields).isEmpty = false →
        (update_asset w st key fields).1.request_count = st.request_count + 1 ∧
        (update_asset w st key fields).1.remoteCalls =
          st.remoteCalls ++ [RemoteCall.updateCall key (buildCustomFields fields)]) ∧
    (∀ (w : World) (idx : Nat) (serial : Value) (fs : List FieldSpec) (st : St)
        (u : List (String × Option String)),
        st.quit_processing = true → processFields w idx serial fs st u = (st, u)) ∧
    (∀ (w : World) (rs : List (Nat × Row)) (st : St),
        st.quit_processing = true → processRows w rs st = Except.ok st) := by
  refine ⟨fun w st s => ?_, fun w st key fields hne hcf => ?_,
    processFields_quit, processRows_quit⟩
  · rw [get_asset_by_serial_eq]
    exact ⟨rfl, rfl⟩
  · rw [update_asset_eq w st key fields hne hcf]
    exact ⟨rfl, rfl⟩

/-- Witness for C9: with 150 requests already made and a gate that answers
quit, the lookup is still issued (counter 151, call recorded) and the flag
then stops the next row. -/
theorem claim9_witness :
    (get_asset_by_serial worldC9 stC9 "S1").1.request_count = stC9.request_count + 1 ∧
    (get_asset_by_serial worldC9 stC9 "S1").1.remoteCalls =
      stC9.remoteCalls ++ [RemoteCall.lookupCall "S1"] ∧
    (update_asset worldC9 stC9 "K1" [("barCode", some "123")]).1.remoteCalls =
      stC9.remoteCalls ++ [RemoteCall.updateCall "K1"
        (buildCustomFields [("barCode", some "123")])] ∧
    processRows worldC9 [(1, blankRow)] { stC9 with quit_processing := true } =
      Except.ok { stC9 with quit_processing := true } :=
  ⟨(claim9_gate_quit_call_still_issued.1 worldC9 stC9 "S1").1,
   (claim9_gate_quit_call_still_issued.1 worldC9 stC9 "S1").2,
   (claim9_gate_quit_call_still_issued.2.1 worldC9 stC9 "K1" [("barCode", some "123")]
      (by decide) (by decide)).2,
   claim9_gate_quit_call_still_issued.2.2.2 worldC9 [(1, blankRow)] _ rfl⟩

/-- C7: a lookup returning more than one match makes the identity be
recorded as ambiguous and skipped entirely — the only state change beyond
the lookup itself is the ambiguous report entry: no decision is consumed,
no field outcome of any kind is recorded, the local rows are untouched and
no update call is dispatched. -/
theorem claim7_ambiguous_skipped (w : World) (idx : Nat) (row : Row) (st : St)
    (total : Nat) (items : List AssetItem)
    (hs : is_empty row.serialNumber = false)
    (hl : w.lookups st.lookupIdx = LookupResult.success total items)
    (ht : 1 < total) :
    processRow w idx row st =
      Except.ok { (get_asset_by_serial w st (pyStr row.serialNumber)).1 with
        discrepancy := (get_asset_by_serial w st (pyStr row.serialNumber)).1.discrepancy ++
          [DiscEntry.ambiguous row.serialNumber] } ∧
    (get_asset_by_serial w st (pyStr row.serialNumber)).1.decisionIdx = st.decisionIdx ∧
    (get_asset_by_serial w st (pyStr row.serialNumber)).1.missing_info = st.missing_info ∧
    (get_asset_by_serial w st (pyStr row.serialNumber)).1.spreadsheet_changes =
      st.spreadsheet_changes ∧
    (get_asset_by_serial w st (pyStr row.serialNumber)).1.ls_changes = st.ls_changes ∧
    (get_asset_by_serial w st (pyStr row.serialNumber)).1.conflict_info = st.conflict_info ∧
    (get_asset_by_serial w st (pyStr row.serialNumber)).1.df = st.df ∧
    (get_asset_by_serial w st (pyStr row.serialNumber)).1.updateIdx = st.updateIdx ∧
    (get_asset_by_serial w st (pyStr row.serialNumber)).1.remoteCalls =
      st.remoteCalls ++ [RemoteCall.lookupCall (pyStr row.serialNumber)] := by
  have h0 : (total == 0) = false := by
    cases total with
    | zero => exact absurd ht (by omega)
    | succ n => rfl
  have h1 : decide (total > 1) = true := by
    simp only [decide_eq_true_iff]
    omega
  refine ⟨?_, ?_⟩
  · simp only [processRow, hs, Bool.false_eq_true, if_false, get_asset_by_serial_eq, hl,
      h0, h1, if_true]
  · rw [get_asset_by_serial_eq]
    exact ⟨rfl, rfl, rfl, rfl, rfl, rfl, rfl, rfl⟩

/-- Witness for C7: concrete two-match lookup. -/
theorem claim7_witness :
    processRow worldC7 0 rowC7 (initSt [rowC7]) =
      Except.ok { (get_asset_by_serial worldC7 (initSt [rowC7]) (pyStr rowC7.serialNumber)).1 with
        discrepancy :=
          (get_asset_by_serial worldC7 (initSt [rowC7]) (pyStr rowC7.serialNumber)).1.discrepancy ++
            [DiscEntry.ambiguous rowC7.serialNumber] } ∧
    (get_asset_by_serial worldC7 (initSt [rowC7]) (pyStr rowC7.serialNumber)).1.decisionIdx =
      (initSt [rowC7]).decisionIdx :=
  ⟨(claim7_ambiguous_skipped worldC7 0 rowC7 (initSt [rowC7]) 2 [] (by decide) rfl
      (by decide)).1,
   (claim7_ambiguous_skipped worldC7 0 rowC7 (initSt [rowC7]) 2 [] (by decide) rfl
      (by decide)).2.1⟩

/-- C6: the spreadsheet file is written back at most once per run, and
exactly when the run did not crash and at least one entry was appended to
`spreadsheet_changes` — and that list receives entries only from the two
FillLocal-class branches (`SheetChange.gapFilled` on a local gap fill,
`SheetChange.adoptedRemote` on an adopt-remote conflict resolution). -/
theorem claim6_save_at_most_once (w : World) :
    (runMain w).saveCount ≤ 1 ∧
    ((runMain w).saveCount = 1 ↔
      (runMain w).crashed = false ∧ (runMain w).final.spreadsheet_changes ≠ []) := by
  unfold runMain
  cases h : processRows w (enumFrom 0 w.rows) (initSt w.rows) with
  | error st => simp
  | ok st =>
    dsimp only
    have hq : (if st.quit_processing then
        { st with discrepancy := st.discrepancy ++ [DiscEntry.stoppedByUser] }
      else st).spreadsheet_changes = st.spreadsheet_changes := by
      split <;> rfl
    rw [appendSections_sheet, hq]
    by_cases he : st.spreadsheet_changes.isEmpty
    · rw [List.isEmpty_iff] at he
      simp [he]
    · have hne : st.spreadsheet_changes ≠ [] := by
        intro hnil
        rw [hnil] at he
        exact he rfl
      simp only [he, if_false]
      simp [hne]

/-- C1: a failed remote lookup is not contained to that identity — the
`None` return is subscripted (`asset['total']`), the resulting exception
reaches the top-level handler, and the whole run stops: with two rows and
a failing first lookup, the run crashes, only one lookup was ever issued,
the second identity is never processed, no failure entry reaches the
discrepancies report, and nothing is saved. -/
theorem claim1_lookup_failure_aborts_run :
    (runMain worldC1).crashed = true ∧
    (runMain worldC1).final.lookupIdx = 1 ∧
    (runMain worldC1).final.discrepancy = [DiscEntry.header] ∧
    (runMain worldC1).saveCount = 0 ∧
    worldC1.rows.length = 2 ∧
    is_empty (worldC1.rows.getD 1 blankRow).serialNumber = false := by
  decide

/-- C3 counterexample: with local date `11/08/2024` and an Empty remote
value, the value staged into the identity's update batch (and echoed in the
will-update ledger entry) is the plain calendar date `2024-11-08`, not the
full UTC timestamp `2024-11-08T00:00:00Z` the claim states. -/
theorem claim3_counterexample :
    (runMain worldC3).final.ls_changes =
      [LsChange.willFill (Value.vstr "S1") "Invoice Date" (some "2024-11-08"),
       LsChange.updatedLs (Value.vstr "S1") [("purchaseDate", some "2024-11-08")]] ∧
    (some "2024-11-08" : Option String) ≠ some "2024-11-08T00:00:00Z" := by
  decide

/-- C3 amended: the outcome is FillRemote staged as the local-representation
calendar date `2024-11-08`; the conversion to the remote representation
`2024-11-08T00:00:00Z` happens inside the dispatched update call; the local
row is left unchanged and the file is not rewritten. -/
theorem claim3_fill_remote_staging :
    (runMain worldC3).final.ls_changes =
      [LsChange.willFill (Value.vstr "S1") "Invoice Date" (some "2024-11-08"),
       LsChange.updatedLs (Value.vstr "S1") [("purchaseDate", some "2024-11-08")]] ∧
    (runMain worldC3).final.remoteCalls =
      [RemoteCall.lookupCall "S1",
       RemoteCall.updateCall "K1" [("purchaseDate", CustomFieldVal.dateWrapped "2024-11-08T00:00:00Z")]] ∧
    (runMain worldC3).final.df = worldC3.rows ∧
    (runMain worldC3).saveCount = 0 := by
  decide

/-- C2 counterexample: a field staged for remote update (Invoice Date with
the unparseable local value `notadate`, staged as Python `None`) is
silently omitted at dispatch: no update call is ever posted, yet the run
records a successful update for that identity. -/
theorem claim2_counterexample :
    (runMain worldC2).final.ls_changes =
      [LsChange.willFill (Value.vstr "S1") "Invoice Date" none,
       LsChange.updatedLs (Value.vstr "S1") [("purchaseDate", none)]] ∧
    countUpdateCalls (runMain worldC2).final.remoteCalls = 0 := by
  decide

/-- C4 counterexample: after the quit (Abort) decision at the Invoice Date
conflict, the barcode update staged by the earlier field of the same
identity is discarded — no update call is dispatched for the in-progress
identity (the claim states such staged work is not rolled back). -/
theorem claim4_counterexample :
    (runMain worldC4).final.quit_processing = true ∧
    (runMain worldC4).final.ls_changes =
      [LsChange.willFill (Value.vstr "S1") "Barcode Number" (some "123")] ∧
    countUpdateCalls (runMain worldC4).final.remoteCalls = 0 ∧
    (runMain worldC4).final.lookupIdx = 1 ∧
    worldC4.rows.length = 2 := by
  decide

lemma oelse_none_right (a : Option α) : oelse a none = a := by
  cases a <;> rfl

lemma digitChar_isDigit {d : Nat} (h : d < 10) : isDigitChar (digitChar d) = true := by
  interval_cases d <;> decide

lemma dv_digitChar {d : Nat} (h : d < 10) : dv (digitChar d) = d := by
  interval_cases d <;> decide

lemma digitChar_not_space {d : Nat} (h : d < 10) : isSpaceChar (digitChar d) = false := by
  interval_cases d <;> decide

lemma digitChar_ne_of_not_digit {d : Nat} {c : Char} (h : d < 10)
    (hc : isDigitChar c = false) : digitChar d ≠ c := by
  intro he
  rw [← he] at hc
  simp [digitChar_isDigit h] at hc

lemma num4_pad4 {n : Nat} (h : n ≤ 9999) (r : List Char) :
    num4 (pad4 n ++ r) = some (n, r) := by
  have h1 : n / 1000 < 10 := by omega
  have h2 : n / 100 % 10 < 10 := by omega
  have h3 : n / 10 % 10 < 10 := by omega
  have h4 : n % 10 < 10 := by omega
  simp [pad4, num4, digitChar_isDigit h1, digitChar_isDigit h2, digitChar_isDigit h3,
    digitChar_isDigit h4, dv_digitChar h1, dv_digitChar h2, dv_digitChar h3, dv_digitChar h4]
  omega

lemma num2_pad2 {lo hi n : Nat} (hlo : lo ≤ n) (hhi : n ≤ hi) (h99 : n ≤ 99)
    (r : List Char) : num2 lo hi (pad2 n ++ r) = some (n, r) := by
  have h1 : n / 10 < 10 := by omega
  have h2 : n % 10 < 10 := by omega
  have hv : dv (digitChar (n / 10)) * 10 + dv (digitChar (n % 10)) = n := by
    rw [dv_digitChar h1, dv_digitChar h2]
    omega
  simp [pad2, num2, digitChar_isDigit h1, digitChar_isDigit h2, hv,
    decide_eq_true hlo, decide_eq_true hhi]

lemma num1_pad2_small {n lo : Nat} (hn : n ≤ 9) (hlo : 1 ≤ lo) (r : List Char) :
    num1 lo (pad2 n ++ r) = none := by
  have h0 : n / 10 = 0 := by omega
  simp [pad2, num1, h0, dv_digitChar (show (0:Nat) < 10 by omega)]
  omega

lemma num1_pad2_any {n lo : Nat} (h99 : n ≤ 99) (hlo : lo ≤ n / 10) (r : List Char) :
    num1 lo (pad2 n ++ r) = some (n / 10, digitChar (n % 10) :: r) := by
  have h1 : n / 10 < 10 := by omega
  simp [pad2, num1, digitChar_isDigit h1, dv_digitChar h1, decide_eq_true hlo]

lemma runFmt_lit_cons (c : Char) (ts : List Tok) (r : List Char) (dt : Datetime) :
    runFmt (Tok.lit c :: ts) (c :: r) dt = runFmt ts r dt := by
  simp [runFmt]

lemma runFmt_lit_nil (c : Char) (ts : List Tok) (dt : Datetime) :
    runFmt (Tok.lit c :: ts) [] dt = none := by
  simp [runFmt]

lemma runFmt_lit_ne {c x : Char} (h : x ≠ c) (ts : List Tok) (r : List Char)
    (dt : Datetime) : runFmt (Tok.lit c :: ts) (x :: r) dt = none := by
  simp [runFmt, h]

lemma runFmt_year4_pad {n : Nat} (h : n ≤ 9999) (ts : List Tok) (r : List Char)
    (dt : Datetime) :
    runFmt (Tok.year4 :: ts) (pad4 n ++ r) dt = runFmt ts r { dt with year := n } := by
  simp [runFmt, num4_pad4 h r]

lemma runFmt_month_lit {n : Nat} (h1 : 1 ≤ n) (h12 : n ≤ 12) {c : Char}
    (hc : isDigitChar c = false) (ts : List Tok) (r : List Char) (dt : Datetime) :
    runFmt (Tok.month :: Tok.lit c :: ts) (pad2 n ++ r) dt =
      runFmt (Tok.lit c :: ts) r { dt with month := n } := by
  have hnum2 : num2 1 12 (pad2 n ++ r) = some (n, r) := num2_pad2 h1 h12 (by omega) r
  by_cases hn : n ≤ 9
  · have hnum1 : num1 1 (pad2 n ++ r) = none := num1_pad2_small hn (by omega) r
    simp [runFmt, hnum2, hnum1, oelse_none_right]
  · have hnum1 : num1 1 (pad2 n ++ r) = some (n / 10, digitChar (n % 10) :: r) :=
      num1_pad2_any (by omega) (by omega) r
    have hne : digitChar (n % 10) ≠ c := digitChar_ne_of_not_digit (by omega) hc
    simp [runFmt, hnum2, hnum1, hne, oelse_none_right]

lemma runFmt_day_lit {n : Nat} (h1 : 1 ≤ n) (h31 : n ≤ 31) {c : Char}
    (hc : isDigitChar c = false) (ts : List Tok) (r : List Char) (dt : Datetime) :
    runFmt (Tok.day :: Tok.lit c :: ts) (pad2 n ++ r) dt =
      runFmt (Tok.lit c :: ts) r { dt with day := n } := by
  have hnum2 : num2 1 31 (pad2 n ++ r) = some (n, r) := num2_pad2 h1 h31 (by omega) r
  by_cases hn : n ≤ 9
  · have hnum1 : num1 1 (pad2 n ++ r) = none := num1_pad2_small hn (by omega) r
    simp [runFmt, hnum2, hnum1, oelse_none_right]
  · have hnum1 : num1 1 (pad2 n ++ r) = some (n / 10, digitChar (n % 10) :: r) :=
      num1_pad2_any (by omega) (by omega) r
    have hne : digitChar (n % 10) ≠ c := digitChar_ne_of_not_digit (by omega) hc
    simp [runFmt, hnum2, hnum1, hne, oelse_none_right]

lemma runFmt_day_last {n : Nat} (h1 : 1 ≤ n) (h31 : n ≤ 31) (r : List Char)
    (dt : Datetime) :
    runFmt [Tok.day] (pad2 n ++ r) dt = some ({ dt with day := n }, r) := by
  have hnum2 : num2 1 31 (pad2 n ++ r) = some (n, r) := num2_pad2 h1 h31 (by omega) r
  simp [runFmt, hnum2, oelse]

lemma runFmt_hour_lit {n : Nat} (h : n ≤ 23) {c : Char}
    (hc : isDigitChar c = false) (ts : List Tok) (r : List Char) (dt : Datetime) :
    runFmt (Tok.hour :: Tok.lit c :: ts) (pad2 n ++ r) dt =
      runFmt (Tok.lit c :: ts) r { dt with hour := n } := by
  have hnum2 : num2 0 23 (pad2 n ++ r) = some (n, r) := num2_pad2 (by omega) h (by omega) r
  have hnum1 : num1 0 (pad2 n ++ r) = some (n / 10, digitChar (n % 10) :: r) :=
    num1_pad2_any (by omega) (by omega) r
  have hne : digitChar (n % 10) ≠ c := digitChar_ne_of_not_digit (by omega) hc
  simp [runFmt, hnum2, hnum1, hne, oelse_none_right]

lemma runFmt_minute_lit {n : Nat} (h : n ≤ 59) {c : Char}
    (hc : isDigitChar c = false) (ts : List Tok) (r : List Char) (dt : Datetime) :
    runFmt (Tok.minute :: Tok.lit c :: ts) (pad2 n ++ r) dt =
      runFmt (Tok.lit c :: ts) r { dt with minute := n } := by
  have hnum2 : num2 0 59 (pad2 n ++ r) = some (n, r) := num2_pad2 (by omega) h (by omega) r
  have hnum1 : num1 0 (pad2 n ++ r) = some (n / 10, digitChar (n % 10) :: r) :=
    num1_pad2_any (by omega) (by omega) r
  have hne : digitChar (n % 10) ≠ c := digitChar_ne_of_not_digit (by omega) hc
  simp [runFmt, hnum2, hnum1, hne, oelse_none_right]

lemma runFmt_second_lit {n : Nat} (h : n ≤ 59) {c : Char}
    (hc : isDigitChar c = false) (ts : List Tok) (r : List Char) (dt : Datetime) :
    runFmt (Tok.second :: Tok.lit c :: ts) (pad2 n ++ r) dt =
      runFmt (Tok.lit c :: ts) r { dt with second := n } := by
  have hnum2 : num2 0 59 (pad2 n ++ r) = some (n, r) := num2_pad2 (by omega) h (by omega) r
  have hnum1 : num1 0 (pad2 n ++ r) = some (n / 10, digitChar (n % 10) :: r) :=
    num1_pad2_any (by omega) (by omega) r
  have hne : digitChar (n % 10) ≠ c := digitChar_ne_of_not_digit (by omega) hc
  simp [runFmt, hnum2, hnum1, hne, oelse_none_right]

lemma daysInMonth_le (y m : Nat) : daysInMonth y m ≤ 31 := by
  unfold daysInMonth
  split_ifs <;> omega

lemma datetime_valid_bounds {dt : Datetime} (hv : datetime_valid dt = true) :
    1 ≤ dt.year ∧ dt.year ≤ 9999 ∧ 1 ≤ dt.month ∧ dt.month ≤ 12 ∧
    1 ≤ dt.day ∧ dt.day ≤ 31 ∧ dt.hour ≤ 23 ∧ dt.minute ≤ 59 ∧ dt.second ≤ 59 := by
  simp only [datetime_valid, Bool.and_eq_true, decide_eq_true_eq, and_assoc] at hv
  obtain ⟨h1, h2, h3, h4, h5, h6, h7, h8, h9⟩ := hv
  exact ⟨h1, h2, h3, h4, h5, le_trans h6 (daysInMonth_le _ _), h7, h8, h9⟩

lemma datetime_valid_date_only {dt : Datetime} (hv : datetime_valid dt = true) :
    datetime_valid { strptimeDefault with year := dt.year, month := dt.month, day := dt.day } = true := by
  simp only [datetime_valid, strptimeDefault, Bool.and_eq_true, decide_eq_true_eq, and_assoc] at hv ⊢
  obtain ⟨h1, h2, h3, h4, h5, h6, _, _, _⟩ := hv
  exact ⟨h1, h2, h3, h4, h5, h6, by omega, by omega, by omega⟩

lemma renderNormal_append (dt : Datetime) (r : List Char) :
    renderNormal dt ++ r =
      pad4 dt.year ++ '-' :: (pad2 dt.month ++ '-' :: (pad2 dt.day ++ r)) := by
  simp [renderNormal, List.append_assoc, List.cons_append]

lemma runFmt_ymd_prefix {dt : Datetime} (hv : datetime_valid dt = true) {c : Char}
    (hc : isDigitChar c = false) (ts : List Tok) (r : List Char) (dt0 : Datetime) :
    runFmt (Tok.year4 :: Tok.lit '-' :: Tok.month :: Tok.lit '-' :: Tok.day :: Tok.lit c :: ts)
        (renderNormal dt ++ r) dt0 =
      runFmt (Tok.lit c :: ts) r
        { dt0 with year := dt.year, month := dt.month, day := dt.day } := by
  obtain ⟨hy1, hy2, hm1, hm2, hd1, hd31, _, _, _⟩ := datetime_valid_bounds hv
  rw [renderNormal_append, runFmt_year4_pad hy2, runFmt_lit_cons,
    runFmt_month_lit hm1 hm2 (by decide), runFmt_lit_cons, runFmt_day_lit hd1 hd31 hc]

lemma strptime_ymd_lit_fail {dt : Datetime} (hv : datetime_valid dt = true) {c : Char}
    (hc : isDigitChar c = false) (ts : List Tok) :
    strptime (Tok.year4 :: Tok.lit '-' :: Tok.month :: Tok.lit '-' :: Tok.day :: Tok.lit c :: ts)
        (renderNormal dt) = none := by
  unfold strptime
  rw [← List.append_nil (renderNormal dt), runFmt_ymd_prefix hv hc, runFmt_lit_nil]

lemma strptime_fmtYmd_renderNormal {dt : Datetime} (hv : datetime_valid dt = true) :
    strptime fmtYmd (renderNormal dt) =
      some { strptimeDefault with year := dt.year, month := dt.month, day := dt.day } := by
  obtain ⟨hy1, hy2, hm1, hm2, hd1, hd31, _, _, _⟩ := datetime_valid_bounds hv
  unfold strptime fmtYmd
  rw [← List.append_nil (renderNormal dt), renderNormal_append, runFmt_year4_pad hy2,
    runFmt_lit_cons, runFmt_month_lit hm1 hm2 (by decide), runFmt_lit_cons,
    runFmt_day_last hd1 hd31]
  simp [datetime_valid_date_only hv]

lemma datetimeEta (dt : Datetime) :
    (⟨dt.year, dt.month, dt.day, dt.hour, dt.minute, dt.second⟩ : Datetime) = dt := rfl

lemma renderLansweeper_assoc (dt : Datetime) :
    renderLansweeper dt =
      renderNormal dt ++
        'T' :: (pad2 dt.hour ++ ':' :: (pad2 dt.minute ++ ':' :: (pad2 dt.second ++ ['Z']))) := by
  simp [renderLansweeper, List.append_assoc, List.cons_append]

lemma strptime_fmtIsoFracZ_renderLans {dt : Datetime} (hv : datetime_valid dt = true) :
    strptime fmtIsoFracZ (renderLansweeper dt) = none := by
  obtain ⟨_, _, _, _, _, _, hh, hmin, hsec⟩ := datetime_valid_bounds hv
  unfold strptime fmtIsoFracZ
  rw [renderLansweeper_assoc, runFmt_ymd_prefix hv (by decide), runFmt_lit_cons,
    runFmt_hour_lit hh (by decide), runFmt_lit_cons, runFmt_minute_lit hmin (by decide),
    runFmt_lit_cons, runFmt_second_lit hsec (by decide),
    runFmt_lit_ne (show 'Z' ≠ '.' by decide)]

lemma strptime_fmtIsoZ_renderLans {dt : Datetime} (hv : datetime_valid dt = true) :
    strptime fmtIsoZ (renderLansweeper dt) = some dt := by
  obtain ⟨_, _, _, _, _, _, hh, hmin, hsec⟩ := datetime_valid_bounds hv
  unfold strptime fmtIsoZ
  rw [renderLansweeper_assoc, runFmt_ymd_prefix hv (by decide), runFmt_lit_cons,
    runFmt_hour_lit hh (by decide), runFmt_lit_cons, runFmt_minute_lit hmin (by decide),
    runFmt_lit_cons, runFmt_second_lit hsec (by decide), runFmt_lit_cons]
  simp [runFmt, datetimeEta, hv]

lemma renderNormal_date_only (dt : Datetime) :
    renderNormal { strptimeDefault with year := dt.year, month := dt.month, day := dt.day } =
      renderNormal dt := rfl

lemma tryFormats_renderNormal {dt : Datetime} (hv : datetime_valid dt = true) :
    tryFormats dateFormats (renderNormal dt) OutFmt.normal = some (renderNormal dt) := by
  have e1 : strptime fmtIsoFracZ (renderNormal dt) = none :=
    strptime_ymd_lit_fail hv (by decide) _
  have e2 : strptime fmtIsoZ (renderNormal dt) = none :=
    strptime_ymd_lit_fail hv (by decide) _
  have e3 : strptime fmtYmdSpaceTime (renderNormal dt) = none :=
    strptime_ymd_lit_fail hv (by decide) _
  have e4 : strptime fmtIsoT (renderNormal dt) = none :=
    strptime_ymd_lit_fail hv (by decide) _
  have e5 := strptime_fmtYmd_renderNormal hv
  simp [dateFormats, tryFormats, e1, e2, e3, e4, e5, renderDT, renderNormal_date_only]

lemma tryFormats_renderLans {dt : Datetime} (hv : datetime_valid dt = true) :
    tryFormats dateFormats (renderLansweeper dt) OutFmt.lansweeper =
      some (renderLansweeper dt) := by
  have e1 := strptime_fmtIsoFracZ_renderLans hv
  have e2 := strptime_fmtIsoZ_renderLans hv
  simp [dateFormats, tryFormats, e1, e2, renderDT]

lemma strptime_some_valid {toks : List Tok} {cs : List Char} {dt : Datetime}
    (h : strptime toks cs = some dt) : datetime_valid dt = true := by
  unfold strptime at h
  cases hr : runFmt toks cs strptimeDefault with
  | none => rw [hr] at h; simp at h
  | some p =>
    obtain ⟨dtp, rest⟩ := p
    rw [hr] at h
    cases rest with
    | nil =>
      by_cases hv : datetime_valid dtp = true
      · simp only [hv, if_true] at h
        obtain rfl : dtp = dt := by
          exact Option.some.inj h
        exact hv
      · simp only [if_neg hv] at h
        exact Option.noConfusion h
    | cons c cs2 => simp at h

lemma tryFormats_some {fs : List (List Tok)} {cs : List Char} {ofmt : OutFmt}
    {out : List Char} (h : tryFormats fs cs ofmt = some out) :
    ∃ dt, datetime_valid dt = true ∧ out = renderDT ofmt dt := by
  induction fs with
  | nil => simp [tryFormats] at h
  | cons f fs ih =>
    cases hs : strptime f cs with
    | some dt =>
      simp only [tryFormats, hs] at h
      exact ⟨dt, strptime_some_valid hs, (Option.some.inj h).symm⟩
    | none =>
      simp only [tryFormats, hs] at h
      exact ih h

lemma pad2_no_space {n : Nat} (h : n ≤ 99) : ∀ c ∈ pad2 n, isSpaceChar c = false := by
  intro c hc
  simp only [pad2, List.mem_cons, List.not_mem_nil, or_false] at hc
  rcases hc with h1 | h1 <;> subst h1
  · exact digitChar_not_space (by omega)
  · exact digitChar_not_space (by omega)

lemma pad4_no_space {n : Nat} (h : n ≤ 9999) : ∀ c ∈ pad4 n, isSpaceChar c = false := by
  intro c hc
  simp only [pad4, List.mem_cons, List.not_mem_nil, or_false] at hc
  rcases hc with h1 | h1 | h1 | h1 <;> subst h1
  · exact digitChar_not_space (by omega)
  · exact digitChar_not_space (by omega)
  · exact digitChar_not_space (by omega)
  · exact digitChar_not_space (by omega)

lemma no_space_append {l1 l2 : List Char}
    (h1 : ∀ c ∈ l1, isSpaceChar c = false) (h2 : ∀ c ∈ l2, isSpaceChar c = false) :
    ∀ c ∈ l1 ++ l2, isSpaceChar c = false := by
  intro c hc
  rcases List.mem_append.mp hc with h | h
  · exact h1 c h
  · exact h2 c h

lemma no_space_cons {x : Char} {l : List Char} (hx : isSpaceChar x = false)
    (h : ∀ c ∈ l, isSpaceChar c = false) :
    ∀ c ∈ x :: l, isSpaceChar c = false := by
  intro c hc
  rcases List.mem_cons.mp hc with h1 | h1
  · rw [h1]; exact hx
  · exact h c h1

lemma no_space_nil : ∀ c ∈ ([] : List Char), isSpaceChar c = false := by
  intro c hc
  simp at hc

lemma renderNormal_no_space {dt : Datetime} (hv : datetime_valid dt = true) :
    ∀ c ∈ renderNormal dt, isSpaceChar c = false := by
  obtain ⟨_, hy2, _, hm2, _, hd31, _, _, _⟩ := datetime_valid_bounds hv
  unfold renderNormal
  exact no_space_append
    (no_space_append (pad4_no_space hy2)
      (no_space_cons (by decide) (pad2_no_space (by omega))))
    (no_space_cons (by decide) (pad2_no_space (by omega)))

lemma renderLansweeper_no_space {dt : Datetime} (hv : datetime_valid dt = true) :
    ∀ c ∈ renderLansweeper dt, isSpaceChar c = false := by
  obtain ⟨_, _, _, _, _, _, hh, hmin, hsec⟩ := datetime_valid_bounds hv
  unfold renderLansweeper
  exact no_space_append
    (no_space_append
      (no_space_append
        (no_space_append (renderNormal_no_space hv)
          (no_space_cons (by decide) (pad2_no_space (by omega))))
        (no_space_cons (by decide) (pad2_no_space (by omega))))
      (no_space_cons (by decide) (pad2_no_space (by omega))))
    (no_space_cons (by decide) no_space_nil)

lemma renderDT_no_space {dt : Datetime} (hv : datetime_valid dt = true) (ofmt : OutFmt) :
    ∀ c ∈ renderDT ofmt dt, isSpaceChar c = false := by
  cases ofmt with
  | normal => exact renderNormal_no_space hv
  | lansweeper => exact renderLansweeper_no_space hv

lemma renderDT_ne_nil (dt : Datetime) (ofmt : OutFmt) : renderDT ofmt dt ≠ [] := by
  cases ofmt <;> simp [renderDT, renderNormal, renderLansweeper, pad4]

lemma pyStrip_no_space {l : List Char} (h : ∀ c ∈ l, isSpaceChar c = false) :
    pyStrip l = l := by
  have h1 : l.dropWhile isSpaceChar = l := by
    cases l with
    | nil => rfl
    | cons c rest =>
      rw [List.dropWhile_cons]
      simp [h c (by simp)]
  have h2 : l.reverse.dropWhile isSpaceChar = l.reverse := by
    cases hr : l.reverse with
    | nil => rfl
    | cons c rest =>
      rw [List.dropWhile_cons]
      have hm : c ∈ l := by
        rw [← List.mem_reverse, hr]
        simp
      simp [h c hm]
  unfold pyStrip
  rw [h1, h2, List.reverse_reverse]

lemma is_empty_render {dt : Datetime} (hv : datetime_valid dt = true) (ofmt : OutFmt) :
    is_empty (Value.vstr (String.mk (renderDT ofmt dt))) = false := by
  have hne : renderDT ofmt dt ≠ [] := renderDT_ne_nil dt ofmt
  have hstrip : pyStrip (renderDT ofmt dt) = renderDT ofmt dt :=
    pyStrip_no_space (renderDT_no_space hv ofmt)
  have hbeq : (String.mk (renderDT ofmt dt) == "") = false := by
    rw [beq_eq_false_iff_ne]
    intro he
    exact hne (congrArg String.data he)
  simp [is_empty, pd_isna, pyEqEmptyStr, pyIsNone, pyStr, hbeq, hstrip, hne]

lemma parse_date_render {dt : Datetime} (hv : datetime_valid dt = true) (ofmt : OutFmt) :
    parse_date (Value.vstr (String.mk (renderDT ofmt dt))) ofmt =
      some (String.mk (renderDT ofmt dt)) := by
  unfold parse_date
  rw [is_empty_render hv ofmt]
  have hstrip : pyStrip (pyStr (Value.vstr (String.mk (renderDT ofmt dt)))).data =
      renderDT ofmt dt := by
    show pyStrip (renderDT ofmt dt) = renderDT ofmt dt
    exact pyStrip_no_space (renderDT_no_space hv ofmt)
  rw [hstrip]
  cases ofmt with
  | normal => simp [tryFormats_renderNormal hv, renderDT]
  | lansweeper => simp [tryFormats_renderLans hv, renderDT]

/-- C8: date normalisation is idempotent under re-rendering.  `parse_date`
both normalises and renders, so the property
`normalize(render(normalize(x))) == normalize(x)` reads: whenever
`parse_date` succeeds, feeding its rendered output back through
`parse_date` with the same output representation reproduces it exactly. -/
theorem claim8_parse_date_idempotent (v : Value) (ofmt : OutFmt) (y : String)
    (h : parse_date v ofmt = some y) :
    parse_date (Value.vstr y) ofmt = some y := by
  unfold parse_date at h
  cases he : is_empty v with
  | true => rw [he] at h; simp at h
  | false =>
    rw [he] at h
    simp only [Bool.false_eq_true, if_false] at h
    cases htf : tryFormats dateFormats (pyStrip (pyStr v).data) ofmt with
    | none => rw [htf] at h; simp at h
    | some cs =>
      rw [htf] at h
      obtain rfl : String.mk cs = y := Option.some.inj h
      obtain ⟨dt, hdv, rfl⟩ := tryFormats_some htf
      exact parse_date_render hdv ofmt

/-- Witness for C8 at the input `11/08/2024` in the local (`normal`)
representation. -/
theorem claim8_witness :
    parse_date (Value.vstr "2024-11-08") OutFmt.normal = some "2024-11-08" :=
  claim8_parse_date_idempotent (Value.vstr "11/08/2024") OutFmt.normal "2024-11-08"
    (by decide)

/-- C2 amended: every processed (identity, ComparableField) pair takes
exactly one outcome — `classifyField` is a total function and the field
loop body's state effect is exactly that one outcome's effect — but the
"never silently omitted" half of the claim fails at the dispatcher: the
`custom_fields` construction is a filter, and it drops exactly the staged
date fields whose value no longer parses into the remote representation. -/
theorem claim2_exactly_one_outcome_amended :
    (∀ (w : World) (idx : Nat) (serial : Value) (f : FieldSpec) (st : St)
        (u : List (String × Option String)),
        processOneField w idx serial f st u =
          applyOutcome idx serial f (classifyField f (w.decisions st.decisionIdx)) st u) ∧
    (∀ u : List (String × Option String), buildCustomFields u = u.filterMap lsUpdateEntry) ∧
    (∀ (n : String) (v : Option String),
        lsUpdateEntry (n, v) = none ↔
          (n = "purchaseDate" ∨ n = "warrantyDate") ∧
          parse_date (valueOfStaged v) OutFmt.lansweeper = none) := by
  refine ⟨?_, ?_, ?_⟩
  · intro w idx serial f st u
    cases hs : is_empty f.sheetVal with
    | true =>
      cases hl : is_empty f.lsVal with
      | true => simp [processOneField, classifyField, applyOutcome, normField, hs, hl]
      | false => simp [processOneField, classifyField, applyOutcome, normField, hs, hl]
    | false =>
      cases hl : is_empty f.lsVal with
      | true => simp [processOneField, classifyField, applyOutcome, normField, hs, hl]
      | false =>
        cases hc : compare_values f.sheetVal f.lsVal f.lsName with
        | true => simp [processOneField, classifyField, applyOutcome, normField, hs, hl, hc]
        | false =>
          cases hch : w.decisions st.decisionIdx with
          | ls_to_sheet =>
            simp [processOneField, classifyField, applyOutcome, normField, hs, hl, hc, hch]
          | sheet_to_ls =>
            simp [processOneField, classifyField, applyOutcome, normField, hs, hl, hc, hch]
          | skip =>
            simp [processOneField, classifyField, applyOutcome, normField, hs, hl, hc, hch]
          | quit =>
            simp [processOneField, classifyField, applyOutcome, normField, hs, hl, hc, hch]
  · intro u
    induction u with
    | nil => rfl
    | cons f rest ih =>
      cases hf : lsUpdateEntry f with
      | some e => simp [buildCustomFields, List.filterMap_cons, hf, ih]
      | none => simp [buildCustomFields, List.filterMap_cons, hf, ih]
  · intro n v
    by_cases hn : n = "purchaseDate" ∨ n = "warrantyDate"
    · have hb : (n == "purchaseDate" || n == "warrantyDate") = true := by
        rcases hn with h | h <;> simp [h]
      cases hp : parse_date (valueOfStaged v) OutFmt.lansweeper with
      | some iso => simp [lsUpdateEntry, hb, hp, hn]
      | none => simp [lsUpdateEntry, hb, hp, hn]
    · have hb : (n == "purchaseDate" || n == "warrantyDate") = false := by
        push_neg at hn
        simp only [Bool.or_eq_false_iff, beq_eq_false_iff_ne]
        exact ⟨hn.1, hn.2⟩
      simp [lsUpdateEntry, hb, hn]

/-- C4 amended: after an Abort (quit) decision no further identities are
processed, no further fields of the current identity are processed, the
aborting field itself contributes nothing but the flag and the consumed
decision, and the batch of remote updates staged by earlier fields of the
in-progress identity is discarded without dispatch (rather than being
committed and preserved, as the claim stated); already-applied local
mutations are untouched by the abort. -/
theorem claim4_abort_amended :
    (∀ (w : World) (rs : List (Nat × Row)) (st : St),
        st.quit_processing = true → processRows w rs st = Except.ok st) ∧
    (∀ (w : World) (idx : Nat) (serial : Value) (fs : List FieldSpec) (st : St)
        (u : List (String × Option String)),
        st.quit_processing = true → processFields w idx serial fs st u = (st, u)) ∧
    (∀ (w : World) (idx : Nat) (serial : Value) (f : FieldSpec) (st : St)
        (u : List (String × Option String)),
        is_empty f.sheetVal = false → is_empty f.lsVal = false →
        compare_values f.sheetVal f.lsVal f.lsName = false →
        w.decisions st.decisionIdx = Choice.quit →
        processOneField w idx serial f st u =
          ({ st with decisionIdx := st.decisionIdx + 1, quit_processing := true }, u)) ∧
    (∀ (w : World) (st : St) (item : AssetItem) (serial : Value)
        (u : List (String × Option String)),
        st.quit_processing = true → dispatchRow w st item serial u = st) := by
  refine ⟨processRows_quit, processFields_quit, ?_, dispatchRow_quit⟩
  intro w idx serial f st u h1 h2 hc hd
  simp [processOneField, h1, h2, hc, hd]

/-- Witness for C4's amended statement on the concrete abort scenario. -/
theorem claim4_witness :
    processOneField worldC4 0 (Value.vstr "S1")
        ⟨"Invoice Date", "purchaseDate", Value.vstr "11/08/2024",
         Value.vstr "2024-12-01T00:00:00Z"⟩ (initSt []) [("barCode", some "123")] =
      ({ initSt [] with decisionIdx := (initSt []).decisionIdx + 1, quit_processing := true },
       [("barCode", some "123")]) ∧
    dispatchRow worldC4 { initSt [] with quit_processing := true } ⟨"K1", "A", none⟩
        (Value.vstr "S1") [("barCode", some "123")] =
      { initSt [] with quit_processing := true } ∧
    processRows worldC4 [(1, blankRow)] { initSt [] with quit_processing := true } =
      Except.ok { initSt [] with quit_processing := true } :=
  ⟨claim4_abort_amended.2.2.1 worldC4 0 (Value.vstr "S1") _ (initSt []) _
      (by decide) (by decide) (by decide) rfl,
   claim4_abort_amended.2.2.2 worldC4 _ _ _ _ rfl,
   claim4_abort_amended.1 worldC4 _ _ rfl⟩
